import Mathlib

/-!
A shallow embedding of the pitch-judge request handler
(`pitch-ai/pitch/main.py`) and proofs about it.

Python strings are modelled as `List Char` (a Python `str` is a sequence
of code points; slicing, concatenation and `replace` become the
corresponding list operations).  The three external collaborators (the
PDF library, the speech-to-text service, the chat-completion service)
are modelled abstractly: each session carries an `Env` describing the
outcome of every external call, and the handler is a total function of
that environment.  Python exceptions become `Except` values; the
`try/except/finally` of the handler becomes explicit result matching
plus an unconditional cleanup of the mutable state.
-/

set_option autoImplicit false

namespace PitchJudge

/-- A Python string, as a sequence of characters. -/
abbrev Str : Type := List Char

/-- A Python/JSON value, as produced by `json.loads` on the
chat-completion response.  Numbers are modelled as integers (the rubric
scores are integers). -/
inductive Json where
  | null : Json
  | bool : Bool → Json
  | num : Int → Json
  | str : Str → Json
  | arr : List Json → Json
  | obj : List (Str × Json) → Json
  deriving Repr

/-- Outcome of handing the uploaded bytes to the PDF library
(`PdfReader` plus `page.extract_text()` on every page): either the list
of per-page extracted texts, or a parse failure with its message. -/
inductive PdfParse where
  | ok (pages : List Str) : PdfParse
  | err (msg : Str) : PdfParse
  deriving Repr, DecidableEq

/-- The extractor `extract_text_from_pdf` (main.py lines 31–40): on a successful
parse, fold `text += page.extract_text() + "\n"` over the pages and
slice to the first 12000 characters; on any parse failure, catch the
exception and return the sentinel.  The function is total: the Python
original never lets an exception escape. -/
def extract_text_from_pdf : PdfParse → Str
  | .ok pages => (pages.foldl (fun text p => text ++ p ++ ['\n']) []).take 12000
  | .err _ => "Error reading PDF file.".data

/-- The spec's words for the extractor algorithm, for comparison with
the code: "concatenate each page's extracted text with a newline
separator" — i.e. a newline BETWEEN pages — "then truncate to the
length bound". -/
def spec_extract_join (pages : List Str) : Str :=
  ((pages.intersperse ['\n']).flatten).take 12000

/-! ## The result recorder (`save_to_csv`, main.py lines 42–61)

The log file is modelled at the row level: csv.writer turns each Python
value it is handed into one cell, so the file is a list of rows and a
row is a list of `Json` values (the universal Python-value type here;
the string cells are `Json.str`).  `Option` distinguishes a file that
does not exist (`none`, `os.path.isfile` false) from one that exists
with some rows. -/

/-- One row of the CSV log. -/
abbrev Row : Type := List Json

/-- The fields of the session dict that `save_to_csv` reads:
`data['timestamp']`, `data['pitch_scores']` (a dict, modelled as an
association list looked up first-match like a Python dict), and
`data['deck_text']`. -/
structure CsvInput where
  timestamp : Str
  pitch_scores : List (Str × Json)
  deck_text : Str

/-- Python `d.get(k, default)`: the value of the first (unique, in a
real dict) binding of `k`, or the default when `k` is absent. -/
def dictGet (d : List (Str × Json)) (k : Str) (dflt : Json) : Json :=
  match d.find? (fun kv => kv.1 == k) with
  | some kv => kv.2
  | none => dflt

/-- The preview expression `data['deck_text'][:50].replace('\n', ' ') + "..."` (main.py line 60). -/
def deckPreview (deck : Str) : Str :=
  (deck.take 50).map (fun c => if c == '\n' then ' ' else c) ++ "...".data

/-- The header row written on first creation (main.py line 49). -/
def headerRow : Row :=
  [Json.str ("Timestamp".data), Json.str ("Pitch_Problem".data),
   Json.str ("Pitch_Market".data), Json.str ("Pitch_Solution".data),
   Json.str ("Pitch_BizModel".data), Json.str ("Pitch_Traction".data),
   Json.str ("Pitch_Impact".data), Json.str ("Deck_Preview".data)]

/-- The data row written for one session (main.py lines 52–61). -/
def dataRow (d : CsvInput) : Row :=
  [Json.str d.timestamp,
   dictGet d.pitch_scores ("problem".data) (Json.num 0),
   dictGet d.pitch_scores ("market".data) (Json.num 0),
   dictGet d.pitch_scores ("solution".data) (Json.num 0),
   dictGet d.pitch_scores ("biz_model".data) (Json.num 0),
   dictGet d.pitch_scores ("traction".data) (Json.num 0),
   dictGet d.pitch_scores ("impact".data) (Json.num 0),
   Json.str (deckPreview d.deck_text)]

/-- The recorder `save_to_csv` (main.py lines 42–61): check `os.path.isfile`, open
in append mode, write the header only when the file did not exist, then
write the one data row.  Returns the file contents after the call. -/
def save_to_csv (d : CsvInput) (file : Option (List Row)) : List Row :=
  match file with
  | none => [headerRow, dataRow d]
  | some rows => rows ++ [dataRow d]

/-- Repeated recorder calls against the same (initially non-existent)
log file. -/
def recorderRun (ds : List CsvInput) : Option (List Row) :=
  ds.foldl (fun file d => some (save_to_csv d file)) none

/-! ## The orchestrator (`analyze_full_session`, main.py lines 64–190)

Each external call's outcome is a field of an `Env`; Python exceptions
are `Except.error` carrying `str(e)`.  The chat-completion outcome is
an `Except` (service call) whose success carries another `Except` (the
`json.loads` parse of the returned content).  The mutable world is an
`St`: the set of files present on local storage (by name) and the log
file contents. -/

/-- Outcomes of the external calls and the per-request clock readings
for one session. -/
structure Env where
  /-- Outcome of `await pdf_file.read()`, with the parse outcome of the bytes. -/
  pdfRead : Except Str PdfParse
  /-- First `client.audio.transcriptions.create` (pitch recording). -/
  pitchTrans : Except Str Str
  /-- Second `client.audio.transcriptions.create` (Q&A recording). -/
  qaTrans : Except Str Str
  /-- Outcome of `client.chat.completions.create`, then `json.loads` on the
  returned content: service failure, or the content's parse outcome. -/
  completion : Except Str (Except Str Json)
  /-- Value of `datetime.now().strftime('%H%M%S')` for the pitch temp name. -/
  now1 : Str
  /-- Value of `datetime.now().strftime('%H%M%S')` for the Q&A temp name. -/
  now2 : Str
  /-- Value of `datetime.now().strftime("%Y-%m-%d %H:%M:%S")` for the result. -/
  resultTimestamp : Str
  /-- Outcome of the recorder's file I/O (`open`/write in
  `save_to_csv`). -/
  saveOk : Except Str Unit

/-- The mutable world: names of files present on local storage, and the
CSV log (`none` = does not exist). -/
structure St where
  tempFiles : List Str
  log : Option (List Row)

/-- The session result dict assembled at main.py lines 171–180. -/
structure SessionResult where
  deck_text : Str
  pitch_text : Str
  qa_text : Str
  pitch_scores : Json
  qa_scores : Json
  audit_flags : Json
  feedback : Json
  timestamp : Str
  deriving Repr

/-- Modelled `raise HTTPException(status_code=500, detail=str(e))`. -/
structure HTTPError where
  status_code : Nat
  detail : Str
  deriving Repr, DecidableEq

/-- Python `analysis[k]`: the value under `k`, a `KeyError` when the
key is absent, a `TypeError` when `analysis` is not a dict. -/
def Json.getKey : Json → Str → Except Str Json
  | .obj fields, k =>
      match fields.find? (fun kv => kv.1 == k) with
      | some kv => Except.ok kv.2
      | none => Except.error ("KeyError: ".data ++ k)
  | _, _ => Except.error ("TypeError: value is not subscriptable".data)

/-- The fields of a dict value; an `AttributeError` (as raised by
`.get` inside `save_to_csv`) when the value is not a dict. -/
def Json.asObjFields : Json → Except Str (List (Str × Json))
  | .obj fields => Except.ok fields
  | _ => Except.error ("AttributeError: value has no attribute get".data)

/-- The pitch temp-file name `temp_pitch_<HHMMSS>.wav` (main.py line 70). -/
def temp_pitch_name (t : Str) : Str :=
  "temp_pitch_".data ++ t ++ ".wav".data

/-- The Q&A temp-file name `temp_qa_<HHMMSS>.wav` (main.py line 71). -/
def temp_qa_name (t : Str) : Str :=
  "temp_qa_".data ++ t ++ ".wav".data

/-- Modelled `if os.path.exists(name): os.remove(name)` on the file-name set. -/
def removeIfExists (name : Str) (files : List Str) : List Str :=
  files.filter (fun n => n ≠ name)

/-- The body of the `try:` block (main.py lines 73–183): the linear
flow PDF read / extract, write + transcribe pitch, write + transcribe
Q&A, chat completion, `json.loads`, the four key accesses made while
building the result dict, then `save_to_csv`.  Returns the first
exception (as `str(e)`) or the result, together with the world as the
flow left it. -/
def session_flow (env : Env) (st : St) (tp tq : Str) :
    Except Str SessionResult × St :=
  match env.pdfRead with
  | .error e => (.error e, st)
  | .ok parse =>
    let deck_text := extract_text_from_pdf parse
    let st1 : St := { st with tempFiles := tp :: st.tempFiles }
    match env.pitchTrans with
    | .error e => (.error e, st1)
    | .ok pitch_text =>
      let st2 : St := { st1 with tempFiles := tq :: st1.tempFiles }
      match env.qaTrans with
      | .error e => (.error e, st2)
      | .ok qa_text =>
        match env.completion with
        | .error e => (.error e, st2)
        | .ok contentParse =>
          match contentParse with
          | .error e => (.error e, st2)
          | .ok analysis =>
            match analysis.getKey ("pitch_scores".data) with
            | .error e => (.error e, st2)
            | .ok psv =>
              match analysis.getKey ("qa_scores".data) with
              | .error e => (.error e, st2)
              | .ok qsv =>
                match analysis.getKey ("audit_flags".data) with
                | .error e => (.error e, st2)
                | .ok afv =>
                  match analysis.getKey ("feedback".data) with
                  | .error e => (.error e, st2)
                  | .ok fbv =>
                    let result : SessionResult :=
                      { deck_text := deck_text, pitch_text := pitch_text,
                        qa_text := qa_text, pitch_scores := psv,
                        qa_scores := qsv, audit_flags := afv,
                        feedback := fbv, timestamp := env.resultTimestamp }
                    match psv.asObjFields with
                    | .error e => (.error e, st2)
                    | .ok psFields =>
                      match env.saveOk with
                      | .error e => (.error e, st2)
                      | .ok _ =>
                        (.ok result,
                         { st2 with log := some (save_to_csv
                             { timestamp := env.resultTimestamp,
                               pitch_scores := psFields,
                               deck_text := deck_text } st2.log) })

/-- The endpoint `analyze_full_session` (main.py lines 64–190): compute the two
temp-file names, run the `try:` body, convert any exception into an
`HTTPException` with status 500 and the exception's description, and —
`finally:` — remove both temp files if they exist, whatever happened. -/
def analyze_full_session (env : Env) (st : St) :
    Except HTTPError SessionResult × St :=
  let tp := temp_pitch_name env.now1
  let tq := temp_qa_name env.now2
  let out := session_flow env st tp tq
  let stFin : St :=
    { out.2 with tempFiles := removeIfExists tq (removeIfExists tp out.2.tempFiles) }
  match out.1 with
  | .ok result => (.ok result, stFin)
  | .error e => (.error { status_code := 500, detail := e }, stFin)

/-- Does a JSON value have exactly the six rubric keys
`problem, market, solution, biz_model, traction, impact` —
each present, and no others? -/
def hasExactRubricKeys (j : Json) : Bool :=
  match j with
  | .obj fields =>
      (["problem".data, "market".data, "solution".data,
        "biz_model".data, "traction".data, "impact".data].all
        (fun k => (fields.map Prod.fst).contains k))
      && fields.all
        (fun kv => ["problem".data, "market".data, "solution".data,
          "biz_model".data, "traction".data, "impact".data].contains kv.1)
  | _ => false

/-! ## Concrete sessions used to instantiate the theorems -/

/-- A session whose chat-completion call succeeds but returns a body
that is not valid JSON (`json.loads` raises `Expecting value`). -/
def jsonFailEnv : Env :=
  { pdfRead := Except.ok (PdfParse.ok []), pitchTrans := Except.ok [],
    qaTrans := Except.ok [],
    completion := Except.ok (Except.error ("Expecting value".data)),
    now1 := "101112".data, now2 := "101113".data,
    resultTimestamp := "2026-10-12 10:11:14".data, saveOk := Except.ok () }

/-- A well-formed evaluator response with the four expected top-level
keys, whose two score objects are empty. -/
def emptyScoresAnalysis : Json :=
  Json.obj [("pitch_scores".data, Json.obj []), ("qa_scores".data, Json.obj []),
            ("audit_flags".data, Json.arr []), ("feedback".data, Json.obj [])]

/-- A session in which every external call succeeds and the evaluator
returns `emptyScoresAnalysis`. -/
def emptyScoresEnv : Env :=
  { pdfRead := Except.ok (PdfParse.ok ["deck page".data]),
    pitchTrans := Except.ok ("pitch words".data),
    qaTrans := Except.ok ("qa words".data),
    completion := Except.ok (Except.ok emptyScoresAnalysis),
    now1 := "101112".data, now2 := "101113".data,
    resultTimestamp := "2026-10-12 10:11:14".data, saveOk := Except.ok () }

/-- The session result `emptyScoresEnv` produces. -/
def emptyScoresResult : SessionResult :=
  { deck_text := extract_text_from_pdf (PdfParse.ok ["deck page".data]),
    pitch_text := "pitch words".data, qa_text := "qa words".data,
    pitch_scores := Json.obj [], qa_scores := Json.obj [],
    audit_flags := Json.arr [], feedback := Json.obj [],
    timestamp := "2026-10-12 10:11:14".data }

/-- A score object with exactly the six rubric keys. -/
def sixKeyScores : Json :=
  Json.obj [("problem".data, Json.num 5), ("market".data, Json.num 4),
            ("solution".data, Json.num 5), ("biz_model".data, Json.num 3),
            ("traction".data, Json.num 2), ("impact".data, Json.num 4)]

/-- A well-formed evaluator response whose score objects carry exactly
the six rubric keys. -/
def sixKeyAnalysis : Json :=
  Json.obj [("pitch_scores".data, sixKeyScores), ("qa_scores".data, sixKeyScores),
            ("audit_flags".data, Json.arr []), ("feedback".data, Json.obj [])]

/-- A session in which every external call succeeds and the evaluator
returns `sixKeyAnalysis`. -/
def sixKeyEnv : Env :=
  { pdfRead := Except.ok (PdfParse.ok ["Problem: X".data]),
    pitchTrans := Except.ok ("We solve X".data),
    qaTrans := Except.ok ("Funding for Y".data),
    completion := Except.ok (Except.ok sixKeyAnalysis),
    now1 := "101112".data, now2 := "101113".data,
    resultTimestamp := "2026-10-12 10:11:14".data, saveOk := Except.ok () }

/-- A session whose pitch transcription call fails. -/
def transFailEnv : Env :=
  { pdfRead := Except.ok (PdfParse.ok []),
    pitchTrans := Except.error ("boom".data), qaTrans := Except.ok [],
    completion := Except.ok (Except.ok Json.null),
    now1 := "101112".data, now2 := "101113".data,
    resultTimestamp := "2026-10-12 10:11:14".data, saveOk := Except.ok () }

/-! ## Helper lemmas -/

/-- A name is gone after removing it. -/
theorem not_mem_removeIfExists (name : Str) (files : List Str) :
    name ∉ removeIfExists name files := by
  simp [removeIfExists]

/-- Removing a file adds nothing. -/
theorem mem_of_mem_removeIfExists {x name : Str} {files : List Str}
    (h : x ∈ removeIfExists name files) : x ∈ files :=
  (List.mem_filter.mp h).1

/-- A value with exactly the rubric keys is an object. -/
theorem hasExactRubricKeys_obj {j : Json} (h : hasExactRubricKeys j = true) :
    ∃ fields, j = Json.obj fields := by
  cases j with
  | obj fields => exact ⟨fields, rfl⟩
  | null => simp [hasExactRubricKeys] at h
  | bool b => simp [hasExactRubricKeys] at h
  | num n => simp [hasExactRubricKeys] at h
  | str s => simp [hasExactRubricKeys] at h
  | arr xs => simp [hasExactRubricKeys] at h

/-- The extractor's `text += page + "\n"` fold, as a flat concatenation. -/
theorem foldl_append_newline (pages : List Str) (acc : Str) :
    pages.foldl (fun text p => text ++ p ++ ['\n']) acc =
      acc ++ (pages.map (fun p => p ++ ['\n'])).flatten := by
  induction pages generalizing acc with
  | nil => simp
  | cons p ps ih =>
      rw [List.foldl_cons, ih, List.map_cons, List.flatten_cons]
      simp [List.append_assoc]

/-- A data row is never the header row: its last cell is a preview
ending in `...`, while the header's last cell ends in `w`. -/
theorem dataRow_ne_headerRow (d : CsvInput) : dataRow d ≠ headerRow := by
  intro h
  have hlast := congrArg List.getLast? h
  rw [show (dataRow d).getLast? = some (Json.str (deckPreview d.deck_text)) from rfl,
      show headerRow.getLast? = some (Json.str ("Deck_Preview".data)) from rfl] at hlast
  injection hlast with h4
  injection h4 with h3
  have h5 : ((d.deck_text.take 50).map (fun c => if c == '\n' then ' ' else c)
        ++ '.' :: '.' :: '.' :: []).getLast? = ("Deck_Preview".data).getLast? :=
    congrArg List.getLast? h3
  rw [List.getLast?_append_cons] at h5
  exact absurd h5 (by decide)

/-- Folding the recorder over further sessions, starting from an
existing file. -/
theorem recorder_foldl_some (ds : List CsvInput) (rows : List Row) :
    ds.foldl (fun file d => some (save_to_csv d file)) (some rows) =
      some (rows ++ ds.map dataRow) := by
  induction ds generalizing rows with
  | nil => simp
  | cons d ds ih =>
      rw [List.foldl_cons,
          show save_to_csv d (some rows) = rows ++ [dataRow d] from rfl,
          ih, List.append_assoc]
      rfl

/-! ## The claims -/

/-- C1: for every input byte string, `extract_text_from_pdf` never
raises (the embedding is a total function), and whenever parsing the
document fails — for any reason `msg` — it returns the fixed sentinel
string. -/
theorem extract_err_returns_sentinel (msg : Str) :
    extract_text_from_pdf (PdfParse.err msg) = "Error reading PDF file.".data :=
  rfl

/-- C2: for every parse outcome (success or failure), the string
returned by `extract_text_from_pdf` has at most 12000 characters. -/
theorem extract_length_le_12000 (p : PdfParse) :
    (extract_text_from_pdf p).length ≤ 12000 := by
  cases p with
  | ok pages => simp [extract_text_from_pdf]
  | err msg =>
      show ("Error reading PDF file.".data).length ≤ 12000
      decide

/-- C3, counterexample: on a one-page document with page text `X`, the
code produces `X` followed by a newline, not the pages joined with a
newline separator between pages as the claim states. -/
theorem extract_join_counterexample :
    extract_text_from_pdf (PdfParse.ok ["X".data]) ≠ spec_extract_join ["X".data] := by
  decide

/-- C3, amended: for every successfully parsed document, the extracted
text is the concatenation over the pages of (page text followed by a
newline) — a newline after every page, including the last — truncated
to 12000 characters. -/
theorem extract_ok_eq_join_trailing (pages : List Str) :
    extract_text_from_pdf (PdfParse.ok pages) =
      ((pages.map (fun p => p ++ ['\n'])).flatten).take 12000 := by
  show (pages.foldl (fun text p => text ++ p ++ ['\n']) []).take 12000 = _
  rw [foldl_append_newline]
  rfl

/-- C4: the appended data row is exactly: the timestamp, the six
pitch-score values for keys problem, market, solution, biz_model,
traction, impact in that order, then the first 50 characters of the
deck text with newlines replaced by spaces and `...` appended; and a
score cell falls back to 0 exactly when its key is absent from
`pitch_scores`. -/
theorem save_to_csv_row_composition (d : CsvInput) :
    (∀ rows, save_to_csv d (some rows) = rows ++
      [[Json.str d.timestamp,
        dictGet d.pitch_scores ("problem".data) (Json.num 0),
        dictGet d.pitch_scores ("market".data) (Json.num 0),
        dictGet d.pitch_scores ("solution".data) (Json.num 0),
        dictGet d.pitch_scores ("biz_model".data) (Json.num 0),
        dictGet d.pitch_scores ("traction".data) (Json.num 0),
        dictGet d.pitch_scores ("impact".data) (Json.num 0),
        Json.str ((d.deck_text.take 50).map
          (fun c => if c == '\n' then ' ' else c) ++ "...".data)]]) ∧
    (∀ k, k ∉ d.pitch_scores.map Prod.fst →
      dictGet d.pitch_scores k (Json.num 0) = Json.num 0) := by
  refine ⟨fun rows => rfl, fun k hk => ?_⟩
  have hnone : d.pitch_scores.find? (fun kv => kv.1 == k) = none := by
    rw [List.find?_eq_none]
    intro kv hkv
    simp only [beq_iff_eq]
    intro hEq
    exact hk (hEq ▸ List.mem_map_of_mem Prod.fst hkv)
  simp [dictGet, hnone]

/-- Witness for C4 at a concrete session dict with an empty score
mapping: the absent key `problem` is replaced by 0. -/
theorem save_to_csv_row_composition_witness :
    dictGet ([] : List (Str × Json)) "problem".data (Json.num 0) = Json.num 0 :=
  (save_to_csv_row_composition
    { timestamp := "t".data, pitch_scores := [], deck_text := "deck".data }).2
    "problem".data (by simp)

/-- C5: every `save_to_csv` call appends exactly one data row, writing
the 8-column header first exactly when the file did not exist; hence a
run of recorder calls against an initially absent file yields the
header as the first line, followed by one data row per call, and the
header appears nowhere else. -/
theorem save_to_csv_header_once (d : CsvInput) (ds : List CsvInput) :
    save_to_csv d none = [headerRow, dataRow d] ∧
    (∀ rows, save_to_csv d (some rows) = rows ++ [dataRow d]) ∧
    recorderRun (d :: ds) = some (headerRow :: (d :: ds).map dataRow) ∧
    headerRow ∉ (d :: ds).map dataRow := by
  refine ⟨rfl, fun rows => rfl, ?_, ?_⟩
  · have h0 : recorderRun (d :: ds) =
        ds.foldl (fun file d => some (save_to_csv d file))
          (some [headerRow, dataRow d]) := rfl
    rw [h0, recorder_foldl_some]
    rfl
  · intro hmem
    obtain ⟨x, _, h⟩ := List.mem_map.mp hmem
    exact dataRow_ne_headerRow x h

/-- C10: the Deck_Preview cell is the last cell of the data row; it
always ends with the three-character marker `...` and its total length
is at most 53 characters, for every deck text (the ellipsis is
unconditional). -/
theorem deck_preview_ellipsis_bounded (d : CsvInput) :
    (dataRow d).getLast? = some (Json.str (deckPreview d.deck_text)) ∧
    (deckPreview d.deck_text).length ≤ 53 ∧
    "...".data <:+ deckPreview d.deck_text := by
  refine ⟨rfl, ?_, List.suffix_append _ _⟩
  show ((d.deck_text.take 50).map (fun c => if c == '\n' then ' ' else c)
      ++ "...".data).length ≤ 53
  rw [List.length_append, List.length_map, List.length_take,
      show ("...".data).length = 3 from rfl]
  omega

/-- C9: whatever the session's outcome, neither temporary audio file
(named from the two per-request clock readings) is present on local
storage when `analyze_full_session` finishes: the `finally:` cleanup
removes both if they exist. -/
theorem analyze_cleanup_removes_temps (env : Env) (st : St) :
    temp_pitch_name env.now1 ∉ (analyze_full_session env st).2.tempFiles ∧
    temp_qa_name env.now2 ∉ (analyze_full_session env st).2.tempFiles := by
  simp only [analyze_full_session]
  cases hout : (session_flow env st (temp_pitch_name env.now1) (temp_qa_name env.now2)).1 with
  | ok r =>
      exact ⟨fun h => not_mem_removeIfExists _ _ (mem_of_mem_removeIfExists h),
             not_mem_removeIfExists _ _⟩
  | error e =>
      exact ⟨fun h => not_mem_removeIfExists _ _ (mem_of_mem_removeIfExists h),
             not_mem_removeIfExists _ _⟩

/-- C6: when the chat-completion call itself succeeds but its body is
not parseable as JSON, the endpoint fails with status 500 carrying the
parse error, and the recorder is never reached: the log file is exactly
as it was. -/
theorem json_failure_500_log_unchanged (env : Env) (st : St)
    (p : PdfParse) (t u e : Str)
    (h1 : env.pdfRead = Except.ok p) (h2 : env.pitchTrans = Except.ok t)
    (h3 : env.qaTrans = Except.ok u)
    (h4 : env.completion = Except.ok (Except.error e)) :
    (analyze_full_session env st).1 = Except.error { status_code := 500, detail := e } ∧
    (analyze_full_session env st).2.log = st.log := by
  refine ⟨?_, ?_⟩ <;>
    simp [analyze_full_session, session_flow, h1, h2, h3, h4]

/-- Witness for C6: a concrete session whose completion body is not
JSON yields status 500 and leaves a non-existent log non-existent. -/
theorem json_failure_500_log_unchanged_witness :
    (analyze_full_session jsonFailEnv { tempFiles := [], log := none }).1
      = Except.error { status_code := 500, detail := "Expecting value".data } ∧
    (analyze_full_session jsonFailEnv { tempFiles := [], log := none }).2.log = none :=
  json_failure_500_log_unchanged jsonFailEnv { tempFiles := [], log := none }
    (PdfParse.ok []) [] [] "Expecting value".data rfl rfl rfl rfl

/-- C7, counterexample: a well-formed-JSON evaluator response carrying
all four expected top-level keys but empty score objects flows through
the handler unvalidated — the session succeeds and the returned
`pitch_scores` does NOT contain the six rubric keys. -/
theorem session_rubric_keys_counterexample :
    (analyze_full_session emptyScoresEnv { tempFiles := [], log := none }).1
      = Except.ok emptyScoresResult ∧
    hasExactRubricKeys emptyScoresResult.pitch_scores = false :=
  ⟨rfl, rfl⟩

/-- C7, amended: the handler copies the evaluator's `pitch_scores` and
`qa_scores` values into the Session Result verbatim, with no key
validation; so those mappings contain exactly the six rubric keys
whenever the evaluator's own score objects do. -/
theorem session_scores_echo_rubric_keys (env : Env) (st : St)
    (p : PdfParse) (t u : Str) (analysis psv qsv afv fbv : Json)
    (h1 : env.pdfRead = Except.ok p) (h2 : env.pitchTrans = Except.ok t)
    (h3 : env.qaTrans = Except.ok u)
    (h4 : env.completion = Except.ok (Except.ok analysis))
    (h5 : analysis.getKey ("pitch_scores".data) = Except.ok psv)
    (h6 : analysis.getKey ("qa_scores".data) = Except.ok qsv)
    (h7 : analysis.getKey ("audit_flags".data) = Except.ok afv)
    (h8 : analysis.getKey ("feedback".data) = Except.ok fbv)
    (h9 : env.saveOk = Except.ok ())
    (hp : hasExactRubricKeys psv = true)
    (hq : hasExactRubricKeys qsv = true) :
    (analyze_full_session env st).1 = Except.ok
      { deck_text := extract_text_from_pdf p, pitch_text := t, qa_text := u,
        pitch_scores := psv, qa_scores := qsv, audit_flags := afv,
        feedback := fbv, timestamp := env.resultTimestamp } ∧
    hasExactRubricKeys psv = true ∧ hasExactRubricKeys qsv = true := by
  obtain ⟨psFields, rfl⟩ := hasExactRubricKeys_obj hp
  refine ⟨?_, hp, hq⟩
  simp [analyze_full_session, session_flow, h1, h2, h3, h4, h5, h6, h7, h8, h9,
    Json.asObjFields]

/-- Witness for C7 (amended) at a concrete session whose evaluator
response carries exactly the six rubric keys in both score objects. -/
theorem session_scores_echo_rubric_keys_witness :
    (analyze_full_session sixKeyEnv { tempFiles := [], log := none }).1 = Except.ok
      { deck_text := extract_text_from_pdf (PdfParse.ok ["Problem: X".data]),
        pitch_text := "We solve X".data, qa_text := "Funding for Y".data,
        pitch_scores := sixKeyScores, qa_scores := sixKeyScores,
        audit_flags := Json.arr [], feedback := Json.obj [],
        timestamp := "2026-10-12 10:11:14".data } ∧
    hasExactRubricKeys sixKeyScores = true ∧
    hasExactRubricKeys sixKeyScores = true :=
  session_scores_echo_rubric_keys sixKeyEnv { tempFiles := [], log := none }
    (PdfParse.ok ["Problem: X".data]) "We solve X".data ("Funding for Y".data)
    sixKeyAnalysis sixKeyScores sixKeyScores (Json.arr []) (Json.obj [])
    rfl rfl rfl rfl rfl rfl rfl rfl rfl rfl rfl

/-- C8: every exception raised by a step of the `try:` body — the PDF
read, either transcription, the chat-completion call, `json.loads`,
any of the four key accesses made while assembling the result, the
`.get` application inside the recorder, or the recorder's file I/O —
aborts the remaining steps and is converted at the single `except:`
boundary into status 500 whose detail is that exception's description;
and a Session Result is returned only when every step succeeded, fully
assembled from the steps' outputs (never partially). -/
theorem analyze_error_boundary (env : Env) (st : St) :
    (∀ e, env.pdfRead = Except.error e →
      (analyze_full_session env st).1
        = Except.error { status_code := 500, detail := e }) ∧
    (∀ p e, env.pdfRead = Except.ok p → env.pitchTrans = Except.error e →
      (analyze_full_session env st).1
        = Except.error { status_code := 500, detail := e }) ∧
    (∀ p t e, env.pdfRead = Except.ok p → env.pitchTrans = Except.ok t →
      env.qaTrans = Except.error e →
      (analyze_full_session env st).1
        = Except.error { status_code := 500, detail := e }) ∧
    (∀ p t u e, env.pdfRead = Except.ok p → env.pitchTrans = Except.ok t →
      env.qaTrans = Except.ok u → env.completion = Except.error e →
      (analyze_full_session env st).1
        = Except.error { status_code := 500, detail := e }) ∧
    (∀ p t u e, env.pdfRead = Except.ok p → env.pitchTrans = Except.ok t →
      env.qaTrans = Except.ok u → env.completion = Except.ok (Except.error e) →
      (analyze_full_session env st).1
        = Except.error { status_code := 500, detail := e }) ∧
    (∀ p t u analysis e, env.pdfRead = Except.ok p → env.pitchTrans = Except.ok t →
      env.qaTrans = Except.ok u → env.completion = Except.ok (Except.ok analysis) →
      analysis.getKey ("pitch_scores".data) = Except.error e →
      (analyze_full_session env st).1
        = Except.error { status_code := 500, detail := e }) ∧
    (∀ p t u analysis psv e, env.pdfRead = Except.ok p →
      env.pitchTrans = Except.ok t → env.qaTrans = Except.ok u →
      env.completion = Except.ok (Except.ok analysis) →
      analysis.getKey ("pitch_scores".data) = Except.ok psv →
      analysis.getKey ("qa_scores".data) = Except.error e →
      (analyze_full_session env st).1
        = Except.error { status_code := 500, detail := e }) ∧
    (∀ p t u analysis psv qsv e, env.pdfRead = Except.ok p →
      env.pitchTrans = Except.ok t → env.qaTrans = Except.ok u →
      env.completion = Except.ok (Except.ok analysis) →
      analysis.getKey ("pitch_scores".data) = Except.ok psv →
      analysis.getKey ("qa_scores".data) = Except.ok qsv →
      analysis.getKey ("audit_flags".data) = Except.error e →
      (analyze_full_session env st).1
        = Except.error { status_code := 500, detail := e }) ∧
    (∀ p t u analysis psv qsv afv e, env.pdfRead = Except.ok p →
      env.pitchTrans = Except.ok t → env.qaTrans = Except.ok u →
      env.completion = Except.ok (Except.ok analysis) →
      analysis.getKey ("pitch_scores".data) = Except.ok psv →
      analysis.getKey ("qa_scores".data) = Except.ok qsv →
      analysis.getKey ("audit_flags".data) = Except.ok afv →
      analysis.getKey ("feedback".data) = Except.error e →
      (analyze_full_session env st).1
        = Except.error { status_code := 500, detail := e }) ∧
    (∀ p t u analysis psv qsv afv fbv e, env.pdfRead = Except.ok p →
      env.pitchTrans = Except.ok t → env.qaTrans = Except.ok u →
      env.completion = Except.ok (Except.ok analysis) →
      analysis.getKey ("pitch_scores".data) = Except.ok psv →
      analysis.getKey ("qa_scores".data) = Except.ok qsv →
      analysis.getKey ("audit_flags".data) = Except.ok afv →
      analysis.getKey ("feedback".data) = Except.ok fbv →
      psv.asObjFields = Except.error e →
      (analyze_full_session env st).1
        = Except.error { status_code := 500, detail := e }) ∧
    (∀ p t u analysis psv qsv afv fbv psFields e, env.pdfRead = Except.ok p →
      env.pitchTrans = Except.ok t → env.qaTrans = Except.ok u →
      env.completion = Except.ok (Except.ok analysis) →
      analysis.getKey ("pitch_scores".data) = Except.ok psv →
      analysis.getKey ("qa_scores".data) = Except.ok qsv →
      analysis.getKey ("audit_flags".data) = Except.ok afv →
      analysis.getKey ("feedback".data) = Except.ok fbv →
      psv.asObjFields = Except.ok psFields →
      env.saveOk = Except.error e →
      (analyze_full_session env st).1
        = Except.error { status_code := 500, detail := e }) ∧
    (∀ r, (analyze_full_session env st).1 = Except.ok r →
      ∃ p analysis psFields,
        env.pdfRead = Except.ok p ∧
        env.pitchTrans = Except.ok r.pitch_text ∧
        env.qaTrans = Except.ok r.qa_text ∧
        env.completion = Except.ok (Except.ok analysis) ∧
        analysis.getKey ("pitch_scores".data) = Except.ok r.pitch_scores ∧
        analysis.getKey ("qa_scores".data) = Except.ok r.qa_scores ∧
        analysis.getKey ("audit_flags".data) = Except.ok r.audit_flags ∧
        analysis.getKey ("feedback".data) = Except.ok r.feedback ∧
        r.pitch_scores.asObjFields = Except.ok psFields ∧
        env.saveOk = Except.ok () ∧
        r.deck_text = extract_text_from_pdf p ∧
        r.timestamp = env.resultTimestamp) := by
  refine ⟨?_, ?_, ?_, ?_, ?_, ?_, ?_, ?_, ?_, ?_, ?_, ?_⟩
  · intro e h1
    simp [analyze_full_session, session_flow, h1]
  · intro p e h1 h2
    simp [analyze_full_session, session_flow, h1, h2]
  · intro p t e h1 h2 h3
    simp [analyze_full_session, session_flow, h1, h2, h3]
  · intro p t u e h1 h2 h3 h4
    simp [analyze_full_session, session_flow, h1, h2, h3, h4]
  · intro p t u e h1 h2 h3 h4
    simp [analyze_full_session, session_flow, h1, h2, h3, h4]
  · intro p t u analysis e h1 h2 h3 h4 h5
    simp [analyze_full_session, session_flow, h1, h2, h3, h4, h5]
  · intro p t u analysis psv e h1 h2 h3 h4 h5 h6
    simp [analyze_full_session, session_flow, h1, h2, h3, h4, h5, h6]
  · intro p t u analysis psv qsv e h1 h2 h3 h4 h5 h6 h7
    simp [analyze_full_session, session_flow, h1, h2, h3, h4, h5, h6, h7]
  · intro p t u analysis psv qsv afv e h1 h2 h3 h4 h5 h6 h7 h8
    simp [analyze_full_session, session_flow, h1, h2, h3, h4, h5, h6, h7, h8]
  · intro p t u analysis psv qsv afv fbv e h1 h2 h3 h4 h5 h6 h7 h8 h9
    simp [analyze_full_session, session_flow, h1, h2, h3, h4, h5, h6, h7, h8, h9]
  · intro p t u analysis psv qsv afv fbv psFields e h1 h2 h3 h4 h5 h6 h7 h8 h9 h10
    simp [analyze_full_session, session_flow, h1, h2, h3, h4, h5, h6, h7, h8, h9, h10]
  · intro r hr
    rcases h1 : env.pdfRead with e | p
    · simp [analyze_full_session, session_flow, h1] at hr
    rcases h2 : env.pitchTrans with e | t
    · simp [analyze_full_session, session_flow, h1, h2] at hr
    rcases h3 : env.qaTrans with e | u
    · simp [analyze_full_session, session_flow, h1, h2, h3] at hr
    rcases h4 : env.completion with e | contentParse
    · simp [analyze_full_session, session_flow, h1, h2, h3, h4] at hr
    rcases h4b : contentParse with e | analysis
    · subst h4b
      simp [analyze_full_session, session_flow, h1, h2, h3, h4] at hr
    subst h4b
    rcases h5 : analysis.getKey ("pitch_scores".data) with e | psv
    · simp [analyze_full_session, session_flow, h1, h2, h3, h4, h5] at hr
    rcases h6 : analysis.getKey ("qa_scores".data) with e | qsv
    · simp [analyze_full_session, session_flow, h1, h2, h3, h4, h5, h6] at hr
    rcases h7 : analysis.getKey ("audit_flags".data) with e | afv
    · simp [analyze_full_session, session_flow, h1, h2, h3, h4, h5, h6, h7] at hr
    rcases h8 : analysis.getKey ("feedback".data) with e | fbv
    · simp [analyze_full_session, session_flow,
        h1, h2, h3, h4, h5, h6, h7, h8] at hr
    rcases h9 : psv.asObjFields with e | psFields
    · simp [analyze_full_session, session_flow,
        h1, h2, h3, h4, h5, h6, h7, h8, h9] at hr
    rcases h10 : env.saveOk with e | u10
    · simp [analyze_full_session, session_flow,
        h1, h2, h3, h4, h5, h6, h7, h8, h9, h10] at hr
    simp [analyze_full_session, session_flow,
      h1, h2, h3, h4, h5, h6, h7, h8, h9, h10] at hr
    subst hr
    exact ⟨p, analysis, psFields, rfl, rfl, rfl, rfl, h5, h6, h7, h8, h9,
      rfl, rfl, rfl⟩

/-- Witness for C8: a concrete session whose pitch transcription raises
`boom` gets status 500 with detail `boom`. -/
theorem analyze_error_boundary_witness :
    (analyze_full_session transFailEnv { tempFiles := [], log := none }).1
      = Except.error { status_code := 500, detail := "boom".data } :=
  (analyze_error_boundary transFailEnv { tempFiles := [], log := none }).2.1
    (PdfParse.ok []) "boom".data rfl rfl

end PitchJudge
